import Mathlib

/-!
Verification development for the Drive Sentinel repository: a shallow
embedding of the cross-service approval workflow (Scanner / NotificationRelay /
CommitHandler) and the token-issuance subsystem, with theorems checking the
specification claims against the code.

Embedded sources:
- `GAS/drive_sentinel_file_watcher.gs` (Scanner)
- `GAS/ai_classifier.gs` (classifier front end)
- `GAS/drive_sentinel_submit_handler.gs` (CommitHandler)
- the Cloud Run relay (`/notify` endpoint and the `DS_APPROVE` component
  handler)
- `auth.gs` (`getGcpAuthToken`)

Network transports (UrlFetchApp, axios, Discord REST) are abstracted: an HTTP
request becomes an effect value in an effect list, and the outcome of a remote
call (HTTP status, parsed body) becomes an explicit input parameter, so every
control-flow branch of the source is represented.
-/

namespace DriveSentinel

/-! ## JavaScript string primitives

JS strings are modelled as Lean `String`; the handful of `String.prototype`
operations the sources use are defined over `String.data` so that they compute
by kernel reduction. -/

/-- JS truthiness of a possibly-absent string: `undefined`, `null` and the
empty string are falsy. -/
def jsTruthy : Option String → Bool
  | none => false
  | some s => !(s == "")

/-- `x || d` for a possibly-absent string `x`. -/
def jsOr : Option String → String → String
  | none, d => d
  | some s, d => if s == "" then d else s

/-- `x || d` where `x` is a present (but possibly empty) string. -/
def jsOrS (s d : String) : String := if s == "" then d else s

/-- `s.startsWith(pre)`. -/
def strStartsWith (s pre : String) : Bool := pre.data.isPrefixOf s.data

/-- Boolean infix test on character lists (computable by kernel reduction). -/
def isInfixOfCh (pat : List Char) : List Char → Bool
  | [] => pat.isPrefixOf []
  | c :: cs => pat.isPrefixOf (c :: cs) || isInfixOfCh pat cs

/-- `s.includes(sub)`. -/
def jsIncludes (s sub : String) : Bool := isInfixOfCh sub.data s.data

/-- `s.substring(0, n)`. -/
def substr0 (s : String) (n : Nat) : String := String.mk (s.data.take n)

/-- `s.split(sep)` for a one-character separator, JS semantics
(`"a..b".split(".") = ["a", "", "b"]`, `"".split(".") = [""]`). -/
def splitChar (sep : Char) : List Char → List (List Char)
  | [] => [[]]
  | c :: cs =>
    if c == sep then [] :: splitChar sep cs
    else
      match splitChar sep cs with
      | [] => [[c]]
      | h :: t => (c :: h) :: t

/-- `s.trim()`: strip leading and trailing whitespace. -/
def jsTrim (s : String) : String :=
  String.mk (((s.data.dropWhile Char.isWhitespace).reverse.dropWhile
    Char.isWhitespace).reverse)

/-- A `\w` or `-` character, the character class of the relay's
`/File ID: ([\w-]+)/` pattern (`\w` = ASCII alphanumeric or underscore). -/
def isWordChar (c : Char) : Bool := c.isAlphanum || c == '_' || c == '-'

/-! ## Dates

`Utilities.formatDate(date, timeZone, "yyyy-MM-dd")`: the file's creation
instant is modelled already projected to the script's time zone as a
year/month/day triple, and the format pattern as zero-padded decimal fields. -/

structure DateYMD where
  year : Nat
  month : Nat
  day : Nat
deriving DecidableEq, Repr

/-- Zero-padded two-digit decimal field (`MM` / `dd`). -/
def pad2 (n : Nat) : String := if n < 10 then "0" ++ toString n else toString n

/-- Zero-padded four-digit decimal field (`yyyy`). -/
def pad4 (n : Nat) : String :=
  if n < 10 then "000" ++ toString n
  else if n < 100 then "00" ++ toString n
  else if n < 1000 then "0" ++ toString n
  else toString n

/-- `Utilities.formatDate(d, tz, "yyyy-MM-dd")`. -/
def formatYMD (d : DateYMD) : String :=
  pad4 d.year ++ "-" ++ pad2 d.month ++ "-" ++ pad2 d.day

/-! ## Classifier (`ai_classifier.gs`, `classifyFileWithGemini_GAS`) -/

/-- The fixed closed category list from `ai_classifier.gs`. -/
def categories : List String :=
  ["学校・教育", "請求書・領収書", "マニュアル・保証書", "公共料金",
   "税金・公的書類", "金融・保険", "医療・健康", "仕事関連", "チラシ・広告", "その他"]

/-- `supportedMimeTypes` from `ai_classifier.gs`. -/
def supportedMimeTypes : List String :=
  ["application/pdf", "image/png", "image/jpeg", "image/gif", "image/bmp", "image/webp"]

/-- The `{category, fileName}` object returned by the classifier; either field
may be `null` on the error paths. -/
structure ClassResult where
  category : Option String
  fileName : Option String
deriving DecidableEq, Repr

/-- The `options` argument (`GCP_PROJECT_ID`, `GCP_LOCATION` script
properties, absent when unset). -/
structure ClassifyEnv where
  projectId : Option String
  location : Option String
deriving Repr

/-- Result of the Drive v2 metadata fetch inside the classifier
(`fields=mimeType,title,downloadUrl,fileSize`). `fail` is any non-200
response. -/
inductive MetaFetch where
  | fail
  | ok (mimeType : String) (title : String) (downloadUrl : Option String)
deriving DecidableEq, Repr

/-- Outcome of the Vertex AI `streamGenerateContent` call:
a non-200 response, a parsed `{category, fileName}` JSON (either field may be
missing), or an unparseable body (the `JSON.parse` throw lands in the
`catch`). -/
inductive VertexReply where
  | httpError
  | output (category : Option String) (fileName : Option String)
  | garbage
deriving DecidableEq, Repr

/-- `classifyFileWithGemini_GAS`. Returns the classification result together
with whether the Vertex AI model endpoint was actually called. `downloadOk`
is whether the content download (`fileMetadata.downloadUrl` fetch) succeeded;
a throw there is caught before the model call. -/
def classifyFileWithGemini_GAS (env : ClassifyEnv) (meta : MetaFetch)
    (downloadOk : Bool) (reply : VertexReply) : ClassResult × Bool :=
  if !(jsTruthy env.projectId && jsTruthy env.location) then
    (⟨some "手動レビュー (設定エラー)", none⟩, false)
  else
    match meta with
    | MetaFetch.fail => (⟨some "手動レビュー (Drive APIエラー)", none⟩, false)
    | MetaFetch.ok mimeType _title downloadUrl =>
      if !(supportedMimeTypes.contains mimeType) then
        (⟨some "手動レビュー (非対応ファイル)", none⟩, false)
      else
        match downloadUrl with
        | none => (⟨some "手動レビュー (DL不可ファイル)", none⟩, false)
        | some _ =>
          if !downloadOk then (⟨some "手動レビュー (GASエラー)", none⟩, false)
          else
            match reply with
            | VertexReply.httpError => (⟨some "手動レビュー (APIエラー)", none⟩, true)
            | VertexReply.garbage => (⟨some "手動レビュー (GASエラー)", none⟩, true)
            | VertexReply.output category fileName =>
              if (match category with
                  | some c => categories.contains c
                  | none => false)
                 && jsTruthy fileName then
                (⟨category, fileName⟩, true)
              else
                (⟨some "手動レビュー", none⟩, true)

/-! ## Scanner (`drive_sentinel_file_watcher.gs`) -/

/-- One item of the inbox listing
(`fields=items(id,title,description,fileSize,createdDate)`); `description` and
`fileSize` may be absent. -/
structure FileEntry where
  id : String
  title : String
  description : Option String
  fileSize : Option Nat
  createdDate : DateYMD
deriving DecidableEq, Repr

/-- Scanner script properties. -/
structure ScannerCfg where
  inboxFolderId : Option String
  projectId : Option String
  location : Option String
  botApiUrl : Option String
  gasApiKey : Option String
deriving Repr

/-- The `/notify` request body built by `sendDiscordNotification`. -/
structure NotifyPayload where
  title : String
  description : String
  fileName : String
  fileId : String
  category : String
  newFileName : String
deriving DecidableEq, Repr

/-- Outbound effects of a Scanner run: a `/notify` POST and a Drive
description patch (`updateFileDescription`). -/
inductive ScanEffect where
  | notify (p : NotifyPayload)
  | setDescription (fileId : String) (description : String)
deriving DecidableEq, Repr

/-- The extension suffix: `file.title.includes('.') ?
'.' + file.title.split('.').pop() : ''`. -/
def jsExtension (title : String) : String :=
  if jsIncludes title "." then
    "." ++ String.mk ((splitChar '.' title.data).getLast?.getD [])
  else ""

/-- The success-branch guard of `processFile`:
`category && !category.startsWith("手動レビュー") && suggestedName`. -/
def classifySuccess (cls : ClassResult) : Bool :=
  match cls.category, cls.fileName with
  | some c, some n =>
    !(c == "") && !(strStartsWith c "手動レビュー") && !(n == "")
  | some _, none => false
  | none, _ => false

/-- `finalNewFileName` as computed by `processFile` (initialised to
`file.title`, reassigned on the success branch). -/
def finalNewFileName (file : FileEntry) (cls : ClassResult) : String :=
  if classifySuccess cls then
    formatYMD file.createdDate ++ "_" ++ jsOr cls.fileName "" ++ jsExtension file.title
  else file.title

/-- `sendDiscordNotification`: the POST is only issued when `BOT_API_URL` and
`GAS_API_KEY` are both set. -/
def sendDiscordNotification (cfg : ScannerCfg) (p : NotifyPayload) : List ScanEffect :=
  if jsTruthy cfg.botApiUrl && jsTruthy cfg.gasApiKey then [ScanEffect.notify p]
  else []

/-- `processFile`: classification result in hand, emit the notification and
the marker write. Returns the effect list in program order (notification POST,
then description patch). -/
def processFile (cfg : ScannerCfg) (file : FileEntry) (cls : ClassResult) :
    List ScanEffect :=
  if !(jsTruthy cfg.projectId && jsTruthy cfg.location) then []
  else
    let categoryForNotification := jsOr cls.category "手動レビュー"
    if classifySuccess cls then
      let f := finalNewFileName file cls
      sendDiscordNotification cfg
        { title := "New File Ready for Approval",
          description := "File classified as **" ++ jsOr cls.category "" ++
            "**. Please click the button to approve.",
          fileName := file.title, fileId := file.id,
          category := jsOr cls.category "", newFileName := f }
      ++ [ScanEffect.setDescription file.id ("DS_PENDING_RENAME::" ++ f)]
    else
      let reason := jsOr cls.category "Unknown error"
      sendDiscordNotification cfg
        { title := "AI Classification Failed",
          description := "Warning: Could not classify document: " ++ file.title ++
            ". Reason: " ++ reason ++ ". Manual review needed.",
          fileName := file.title, fileId := file.id,
          category := categoryForNotification, newFileName := file.title }
      ++ [ScanEffect.setDescription file.id "DS_PROCESSED_MANUAL_REVIEW"]

/-- `file.description && file.description.startsWith("DS_")` — the marker
test of the Scanner's skip check. -/
def dsMarked (f : FileEntry) : Bool :=
  match f.description with
  | some d => strStartsWith d "DS_"
  | none => false

/-- The skip test of `checkNewFilesAndNotify`:
`file.fileSize === 0 || (file.description && file.description.startsWith("DS_"))`. -/
def skipEntry (f : FileEntry) : Bool :=
  f.fileSize == some 0 || dsMarked f

/-- The `for ... of fileList.items` loop with its per-run cap
(`if (fileCount >= 10) break`). `classify` abstracts the classifier call for
the given entry. -/
def scanLoop (cfg : ScannerCfg) (classify : FileEntry → ClassResult) :
    List FileEntry → Nat → List ScanEffect
  | [], _ => []
  | f :: rest, count =>
    if skipEntry f then scanLoop cfg classify rest count
    else
      let effs := processFile cfg f (classify f)
      if count + 1 ≥ 10 then effs
      else effs ++ scanLoop cfg classify rest (count + 1)

/-- `checkNewFilesAndNotify` on one listing page (the Drive query returns at
most `maxResults=20` non-trashed children of the inbox). -/
def checkNewFilesAndNotify (cfg : ScannerCfg) (classify : FileEntry → ClassResult)
    (page : List FileEntry) : List ScanEffect :=
  if !(jsTruthy cfg.inboxFolderId) then [] else scanLoop cfg classify page 0

/-! ## NotificationRelay (Cloud Run service)

The Discord wire format is reduced to the parts the handlers read back:
embed fields (name/value pairs) and the footer text. -/

structure EmbedField where
  name : String
  value : String
deriving DecidableEq, Repr

/-- A rendered approval message embed. `footer` is `none` when the embed has
no footer object (reading `.text` on it then throws). -/
structure Embed where
  title : String
  description : String
  fields : List EmbedField
  footer : Option String
deriving DecidableEq, Repr

/-- Relay environment variables. -/
structure RelayEnv where
  gasApiKey : Option String
deriving Repr

/-- Embed built by the `/notify` endpoint from the Scanner payload. -/
def buildEmbed (p : NotifyPayload) : Embed :=
  { title := jsOrS p.title "New File Ready for Approval",
    description := jsOrS p.description
      ("File classified as **" ++ p.category ++ "**. Please click the button to approve."),
    fields :=
      [⟨"File Name", jsOrS p.fileName "Unknown"⟩,
       ⟨"Predicted Category", p.category⟩,
       ⟨"New File Name", jsOrS p.newFileName p.fileName⟩,
       ⟨"Google Drive Link",
        "[Open File](https://drive.google.com/file/d/" ++ p.fileId ++ "/view)"⟩],
    footer := some ("Processed by DS | File ID: " ++ p.fileId) }

/-- `/notify` handler result. -/
inductive NotifyResult where
  | unauthorized
  | badRequest
  | message (embed : Embed)
deriving DecidableEq, Repr

/-- The `/notify` endpoint: API-key check, required-field check, then the
Discord message POST (transport abstracted; the embed is the message
content). -/
def notifyHandler (env : RelayEnv) (apiKeyHeader : Option String)
    (p : NotifyPayload) : NotifyResult :=
  match env.gasApiKey with
  | none => NotifyResult.unauthorized
  | some k =>
    if !(apiKeyHeader == some k) then NotifyResult.unauthorized
    else if p.fileId == "" || p.category == "" then NotifyResult.badRequest
    else NotifyResult.message (buildEmbed p)

/-- The literal of the relay's file-id pattern, `"File ID: "`. -/
def fileIdLit : List Char := ['F', 'i', 'l', 'e', ' ', 'I', 'D', ':', ' ']

/-- Consume an exact literal from the front of a character list. -/
def stripLit : List Char → List Char → Option (List Char)
  | [], s => some s
  | _ :: _, [] => none
  | l :: ls, c :: cs => if c == l then stripLit ls cs else none

/-- Try `/File ID: ([\w-]+)/` anchored at the current position. -/
def matchIdAt (s : List Char) : Option (List Char) :=
  match stripLit fileIdLit s with
  | none => none
  | some rest =>
    let g := rest.takeWhile isWordChar
    if g.isEmpty then none else some g

/-- `footerText.match(/File ID: ([\w-]+)/)`: first match of the unanchored
pattern, returning the capture group. -/
def findFileIdL : List Char → Option (List Char)
  | [] => none
  | c :: cs =>
    match matchIdAt (c :: cs) with
    | some g => some g
    | none => findFileIdL cs

/-- String-level wrapper for the footer file-id extraction. -/
def findFileId (s : String) : Option String :=
  (findFileIdL s.data).map String.mk

/-- The commit request body the relay POSTs to the GAS web app. -/
structure CommitRequest where
  fileId : Option String
  folderName : Option String
  newFileName : Option String
deriving DecidableEq, Repr

/-- A thrown JavaScript exception. -/
inductive JsError where
  | typeError (msg : String)
deriving DecidableEq, Repr

/-- Outcome of the `DS_APPROVE` component handler up to (and including)
issuing the commit POST. `commit` carries the immediate `UPDATE_MESSAGE`
acknowledgment content (sent with `components: []`, disabling the buttons)
and the commit request; `ephemeralError` is the type-4 `flags: 64` reply. -/
inductive ApproveOutcome where
  | commit (ackContent : String) (req : CommitRequest)
  | ephemeralError (content : String)
deriving DecidableEq, Repr

/-- The `DS_APPROVE` branch of the interaction endpoint: recover the file id
from the embed footer and the category / new-file-name embed fields, then
either acknowledge and POST the commit request, or reply with an ephemeral
error. `interaction.message.embeds[0]` on a message without embeds is
`undefined`, so the `.footer` access throws; likewise `.text` when the first
embed has no footer. -/
def dsApproveHandler (msgEmbeds : List Embed) : Except JsError ApproveOutcome :=
  match msgEmbeds.head? with
  | none => Except.error (JsError.typeError "Cannot read properties of undefined (reading footer)")
  | some e =>
    match e.footer with
    | none => Except.error (JsError.typeError "Cannot read properties of undefined (reading text)")
    | some footerText =>
      let fileIdMatch := findFileId footerText
      let categoryField := e.fields.find? (fun f => f.name == "Predicted Category")
      let newFileNameField := e.fields.find? (fun f => f.name == "New File Name")
      match fileIdMatch, categoryField, newFileNameField with
      | some fileId, some catF, some nfF =>
        Except.ok (ApproveOutcome.commit
          ("⏳ 承認処理を実行中です... ファイルID: `" ++ fileId ++ "` をフォルダ: `" ++
            catF.value ++ "` へ移動します。")
          { fileId := some fileId, folderName := some catF.value,
            newFileName := some nfF.value })
      | _, _, _ =>
        Except.ok (ApproveOutcome.ephemeralError "❌ エラー: ボタンのID形式が正しくありません。")

/-- The follow-up message edit the `DS_APPROVE` handler performs after the
commit POST resolves with body `body` (axios resolves only 2xx responses;
transport-level failures take the `catch` path instead, which is not modelled
here). `category` is the folder name recovered from the embed. -/
def approveFollowUpContent (category : String) (body : String) : String :=
  if !(body == "") && jsIncludes body "Success" then
    "✅ **[DS] 整理完了**\nファイルはフォルダ `" ++ category ++ "` へ移動されました。"
  else
    let errorDetails := jsOrS body "No response data"
    let errorPreview :=
      if errorDetails.length > 1500 then
        substr0 errorDetails 1500 ++ "\n...(詳細はCloud Runログを確認)"
      else errorDetails
    "❌ **[DS] 整理エラー**\nGASからの応答:\n```\n" ++ errorPreview ++ "\n```"

/-! ## CommitHandler (`drive_sentinel_submit_handler.gs`) -/

/-- Drive-side metadata of a document. -/
structure DriveFileMeta where
  title : String
  description : Option String
  parents : List String
  mimeType : String
  fileSize : Option Nat
  createdDate : DateYMD
deriving DecidableEq, Repr

/-- A folder in the destination tree. -/
structure DriveFolder where
  id : String
  title : String
  parent : String
  trashed : Bool
deriving DecidableEq, Repr

/-- The document store. -/
structure DriveState where
  files : List (String × DriveFileMeta)
  folders : List DriveFolder
deriving DecidableEq, Repr

/-- Environment of one `doPost` invocation: the
`DESTINATION_ROOT_FOLDER_ID` property and the outcomes of the individual
Drive calls (`createFolderOk`, `renameOk`, `moveOk` are whether the folder
insert, the rename/clear patch and the move patch return HTTP 200).
`freshFolderId` is the id Drive assigns to a newly created folder. -/
structure SubmitEnv where
  destRoot : Option String
  freshFolderId : String
  createFolderOk : Bool
  renameOk : Bool
  moveOk : Bool
deriving Repr

/-- Drive API requests issued by `doPost`, in program order. -/
inductive SubmitEffect where
  | getMetadata (fileId : String)
  | searchFolder (title : String) (parent : String)
  | createFolder (title : String) (parent : String)
  | patchTitleDescription (fileId : String) (title : String) (description : String)
  | move (fileId : String) (addParent : String) (removeParents : List String)
deriving DecidableEq, Repr

/-- Which `createJsonResponse` call site `doPost` reaches (the `data`
argument of the attempted response). -/
inductive SubmitIntent where
  | configError
  | invalidRequest
  | notFound (fileId : String)
  | folderError
  | moveError
  | success
  | unexpectedError
deriving DecidableEq, Repr

/-- `JSON.stringify` of the object literal passed to `createJsonResponse`
at each call site (insertion order: `status`, then `message`). -/
def responseText : SubmitIntent → String
  | SubmitIntent.configError =>
    "\x7b\"status\":\"error\",\"message\":\"Server configuration error: Root folder not set.\"\x7d"
  | SubmitIntent.invalidRequest =>
    "\x7b\"status\":\"error\",\"message\":\"Invalid request: fileId, folderName, and newFileName are required.\"\x7d"
  | SubmitIntent.notFound fileId =>
    "\x7b\"status\":\"error\",\"message\":\"File not found or access denied for ID: " ++ fileId ++ "\"\x7d"
  | SubmitIntent.folderError =>
    "\x7b\"status\":\"error\",\"message\":\"Could not create destination folder.\"\x7d"
  | SubmitIntent.moveError =>
    "\x7b\"status\":\"error\",\"message\":\"Failed to move file after renaming.\"\x7d"
  | SubmitIntent.success =>
    "\x7b\"status\":\"success\",\"message\":\"File processed successfully.\"\x7d"
  | SubmitIntent.unexpectedError =>
    "\x7b\"status\":\"error\",\"message\":\"An unexpected server error occurred.\"\x7d"

/-- `createJsonResponse`: builds the text output, then evaluates
`ContentService.MmeType.JSON`. `MmeType` is not part of the Apps Script API
(the enum is `ContentService.MimeType`), so the property access yields
`undefined` and reading `.JSON` on it throws a TypeError before the output is
returned. -/
def createJsonResponse (_body : String) : Except JsError String :=
  Except.error (JsError.typeError "Cannot read properties of undefined (reading JSON)")

/-- The response that escapes `doPost`: the `try` block's
`createJsonResponse` throws, the `catch` calls `createJsonResponse` again
with the unexpected-error payload, and that throw propagates out of the
handler (no handler-built response reaches the HTTP layer). -/
def doPostResponse (i : SubmitIntent) : Except JsError String :=
  match createJsonResponse (responseText i) with
  | Except.ok o => Except.ok o
  | Except.error _ => createJsonResponse (responseText SubmitIntent.unexpectedError)

/-- `getFileMetadata` (a 200 is a store lookup hit; any other code returns
`null`). -/
def getFileMetadata (st : DriveState) (fileId : String) : Option DriveFileMeta :=
  (st.files.find? (fun kv => kv.fst == fileId)).map (fun kv => kv.snd)

/-- `folderName.replace(/"/g, '')`. -/
def stripQuotes (s : String) : String := String.mk (s.data.filter (fun c => !(c == '"')))

/-- `getOrCreateFolder`: exact-title search under the root (excluding
trashed), create on zero matches. Returns the folder id (`none` when the
create call fails), the updated store and the Drive requests made. -/
def getOrCreateFolder (env : SubmitEnv) (st : DriveState) (folderName root : String) :
    Option String × DriveState × List SubmitEffect :=
  let clean := stripQuotes folderName
  match st.folders.find? (fun f => f.title == clean && f.parent == root && !f.trashed) with
  | some f => (some f.id, st, [SubmitEffect.searchFolder clean root])
  | none =>
    if env.createFolderOk then
      (some env.freshFolderId,
       { st with folders := st.folders ++ [⟨env.freshFolderId, clean, root, false⟩] },
       [SubmitEffect.searchFolder clean root, SubmitEffect.createFolder clean root])
    else
      (none, st, [SubmitEffect.searchFolder clean root, SubmitEffect.createFolder clean root])

/-- Per-entry action of the rename/clear patch
(`{title: newFileName, description: ""}`): the addressed file gets the new
title and description, every other entry is untouched. -/
def patchEntry (fileId title description : String) (kv : String × DriveFileMeta) :
    String × DriveFileMeta :=
  if kv.fst == fileId then
    (kv.fst, { kv.snd with title := title, description := some description })
  else kv

/-- Apply the rename/clear patch to the store. -/
def applyPatch (st : DriveState) (fileId title description : String) : DriveState :=
  { st with files := st.files.map (patchEntry fileId title description) }

/-- Apply the move patch (`addParents` / `removeParents`): parent labels in
`removeParents` are dropped and `addParent` is added. -/
def applyMove (st : DriveState) (fileId : String) (addParent : String)
    (removeParents : List String) : DriveState :=
  { st with
    files := st.files.map (fun kv =>
      if kv.fst == fileId then
        (kv.fst, { kv.snd with
          parents := (kv.snd.parents.filter (fun p => !(removeParents.contains p))) ++ [addParent] })
      else kv) }

/-- Result of one `doPost` invocation. -/
structure SubmitResult where
  intent : SubmitIntent
  effects : List SubmitEffect
  state : DriveState
  response : Except JsError String
deriving Repr

/-- Assemble a `SubmitResult` at a `createJsonResponse` call site. -/
def submitFinish (i : SubmitIntent) (effects : List SubmitEffect) (st : DriveState) :
    SubmitResult :=
  { intent := i, effects := effects, state := st, response := doPostResponse i }

/-- `doPost` of `drive_sentinel_submit_handler.gs`. State changes from the
rename and move patches are applied only when the corresponding Drive call
returns 200. -/
def doPost (env : SubmitEnv) (st : DriveState) (req : CommitRequest) : SubmitResult :=
  match env.destRoot with
  | none => submitFinish SubmitIntent.configError [] st
  | some root =>
    let fileIdOpt := req.fileId.map jsTrim
    if !(jsTruthy fileIdOpt && jsTruthy req.folderName && jsTruthy req.newFileName) then
      submitFinish SubmitIntent.invalidRequest [] st
    else
      let fileId := fileIdOpt.getD ""
      match getFileMetadata st fileId with
      | none => submitFinish (SubmitIntent.notFound fileId) [SubmitEffect.getMetadata fileId] st
      | some meta =>
        let originalParentIds := meta.parents
        match getOrCreateFolder env st (req.folderName.getD "") root with
        | (none, st1, folderEffs) =>
          submitFinish SubmitIntent.folderError
            (SubmitEffect.getMetadata fileId :: folderEffs) st1
        | (some targetFolderId, st1, folderEffs) =>
          let newFileName := req.newFileName.getD ""
          let st2 := if env.renameOk then applyPatch st1 fileId newFileName "" else st1
          let st3 := if env.moveOk then applyMove st2 fileId targetFolderId originalParentIds else st2
          let effs := SubmitEffect.getMetadata fileId :: folderEffs ++
            [SubmitEffect.patchTitleDescription fileId newFileName "",
             SubmitEffect.move fileId targetFolderId originalParentIds]
          if env.moveOk then submitFinish SubmitIntent.success effs st3
          else submitFinish SubmitIntent.moveError effs st3

/-! ## TokenBroker (`auth.gs`, `getGcpAuthToken`) -/

/-- `GCP_SCOPES`. -/
def GCP_SCOPES : String :=
  "https://www.googleapis.com/auth/cloud-platform https://www.googleapis.com/auth/drive"

/-- The parsed `GCP_SERVICE_ACCOUNT_KEY` fields the function reads. -/
structure ServiceAccountKey where
  private_key : String
  client_email : String
  token_uri : String
deriving DecidableEq, Repr

/-- The JWT claim set built at epoch second `now`. -/
structure JwtClaimSet where
  iss : String
  scope : String
  aud : String
  exp : Nat
  iat : Nat
deriving DecidableEq, Repr

/-- The claim set of `getGcpAuthToken`: issued at `now`, expiring at
`now + 3600` ("Token valid for 1 hour"). -/
def claimSetFor (k : ServiceAccountKey) (now : Nat) : JwtClaimSet :=
  { iss := k.client_email, scope := GCP_SCOPES, aud := k.token_uri,
    exp := now + 3600, iat := now }

/-- `JSON.stringify` of the JWT header. -/
def jwtHeaderJson : String := "\x7b\"alg\":\"RS256\",\"typ\":\"JWT\"\x7d"

/-- `JSON.stringify` of the claim set (insertion order). -/
def claimSetJson (c : JwtClaimSet) : String :=
  "\x7b\"iss\":\"" ++ c.iss ++ "\",\"scope\":\"" ++ c.scope ++ "\",\"aud\":\"" ++ c.aud ++
    "\",\"exp\":" ++ toString c.exp ++ ",\"iat\":" ++ toString c.iat ++ "\x7d"

/-- Environment of the token broker: the stored key (absent ⇒ throw), the
Apps Script crypto/encoding utilities (abstracted as injected functions) and
the token endpoint exchange (assertion ↦ `access_token` field, `none` when
the field is missing). -/
structure AuthEnv where
  serviceAccountKey : Option ServiceAccountKey
  base64UrlEncode : String → String
  rsaSha256Sign : String → String → String
  exchange : String → Option String

/-- The deterministic signing input
`base64url(header) + "." + base64url(claims)`. -/
def signingInput (env : AuthEnv) (k : ServiceAccountKey) (now : Nat) : String :=
  env.base64UrlEncode jwtHeaderJson ++ "." ++
    env.base64UrlEncode (claimSetJson (claimSetFor k now))

/-- The complete signed assertion. -/
def jwtFor (env : AuthEnv) (k : ServiceAccountKey) (now : Nat) : String :=
  signingInput env k now ++ "." ++
    env.base64UrlEncode (env.rsaSha256Sign (signingInput env k now) k.private_key)

/-- The script cache slot `'gcp_access_token'`: value and absolute expiry
second (a `put` at `t` with TTL `ttl` stores expiry `t + ttl`). -/
structure TokenCache where
  entry : Option (String × Nat)
deriving DecidableEq, Repr

/-- `cache.get('gcp_access_token')` at epoch second `now`. -/
def cacheGet (c : TokenCache) (now : Nat) : Option String :=
  match c.entry with
  | some (tok, expiry) => if now < expiry then some tok else none
  | none => none

/-- Failures of `getGcpAuthToken` (both are `throw new Error(...)`). -/
inductive AuthError where
  | missingKey
  | exchangeFailed
deriving DecidableEq, Repr

/-- `getGcpAuthToken`: cache hit short-circuits; otherwise build and sign the
assertion, exchange it, and cache the token for 3300 seconds ("55 minutes,
slightly less than expiry"). Returns the token, the cache after the call and
whether a token exchange was performed. -/
def getGcpAuthToken (env : AuthEnv) (cache : TokenCache) (now : Nat) :
    Except AuthError (String × TokenCache × Bool) :=
  match cacheGet cache now with
  | some tok => Except.ok (tok, cache, false)
  | none =>
    match env.serviceAccountKey with
    | none => Except.error AuthError.missingKey
    | some k =>
      match env.exchange (jwtFor env k now) with
      | none => Except.error AuthError.exchangeFailed
      | some accessToken =>
        Except.ok (accessToken, ⟨some (accessToken, now + 3300)⟩, true)

/-! ## Helper lemmas -/

/-- A string with positive length is not the empty string. -/
lemma ne_empty_of_length_pos {s : String} (h : 0 < s.length) : s ≠ "" := by
  intro he
  rw [he] at h
  exact Nat.lt_irrefl 0 h

/-- On the success branch, the computed final name is nonempty (it contains
at least the `_` separator). -/
lemma finalNewFileName_ne_empty (file : FileEntry) (cls : ClassResult)
    (h : classifySuccess cls = true) : finalNewFileName file cls ≠ "" := by
  apply ne_empty_of_length_pos
  rw [finalNewFileName, if_pos h]
  rw [String.length_append, String.length_append, String.length_append]
  have h1 : ("_" : String).length = 1 := rfl
  omega

/-- `jsOr (some s) d = s` for nonempty `s`. -/
lemma jsOr_some {s d : String} (h : (s == "") = false) : jsOr (some s) d = s := by
  rw [jsOr, h]; rfl

/-- `jsOrS s d = s` for nonempty `s`. -/
lemma jsOrS_of_ne {s d : String} (h : (s == "") = false) : jsOrS s d = s := by
  rw [jsOrS, h]; rfl

/-- A list is a prefix of itself extended by anything (boolean form). -/
lemma isPrefixOf_append_self (a b : List Char) : a.isPrefixOf (a ++ b) = true := by
  induction a with
  | nil => cases b <;> rfl
  | cons c cs ih => simp [List.isPrefixOf, ih]

/-- A boolean prefix hit at the head position is an infix hit. -/
lemma isInfixOfCh_of_isPrefixOf {pat l : List Char} (h : pat.isPrefixOf l = true) :
    isInfixOfCh pat l = true := by
  cases l with
  | nil => simpa [isInfixOfCh] using h
  | cons c cs => simp [isInfixOfCh, h]

/-- An infix hit in the tail is an infix hit. -/
lemma isInfixOfCh_cons {pat : List Char} (c : Char) {cs : List Char}
    (h : isInfixOfCh pat cs = true) : isInfixOfCh pat (c :: cs) = true := by
  simp [isInfixOfCh, h]

/-- Explicit decompositions witness the boolean infix test. -/
lemma isInfixOfCh_append (pre pat suf : List Char) :
    isInfixOfCh pat (pre ++ (pat ++ suf)) = true := by
  induction pre with
  | nil => exact isInfixOfCh_of_isPrefixOf (isPrefixOf_append_self pat suf)
  | cons c cs ih => exact isInfixOfCh_cons c ih

/-- `takeWhile` is the identity on a list all of whose elements satisfy the
predicate. -/
lemma takeWhile_of_all {p : Char → Bool} {l : List Char} (h : l.all p = true) :
    l.takeWhile p = l :=
  List.takeWhile_eq_self_iff.mpr (by simpa [List.all_eq_true] using h)

/-- Scanning past a character that is not the start of the `File ID: `
literal. -/
lemma findFileIdL_cons_of_ne (c : Char) (l : List Char) (h : (c == 'F') = false) :
    findFileIdL (c :: l) = findFileIdL l := by
  simp [findFileIdL, matchIdAt, fileIdLit, stripLit, h]

/-- One unfolding step of the pattern scan. -/
lemma findFileIdL_cons (c : Char) (cs : List Char) :
    findFileIdL (c :: cs)
      = match matchIdAt (c :: cs) with
        | some g => some g
        | none => findFileIdL cs := rfl

/-- A match of the file-id pattern anchored right at the literal. -/
lemma findFileIdL_lit (id0 : List Char) (h1 : id0 ≠ []) (h2 : id0.all isWordChar = true) :
    findFileIdL (fileIdLit ++ id0) = some id0 := by
  cases id0 with
  | nil => exact absurd rfl h1
  | cons c cs =>
    have hmatch : matchIdAt (fileIdLit ++ (c :: cs)) = some (c :: cs) := by
      rw [matchIdAt]
      rw [show stripLit fileIdLit (fileIdLit ++ (c :: cs)) = some (c :: cs) from rfl]
      simp only [takeWhile_of_all h2]
      simp [List.isEmpty]
    rw [show fileIdLit ++ (c :: cs)
        = 'F' :: ('i' :: 'l' :: 'e' :: ' ' :: 'I' :: 'D' :: ':' :: ' ' :: c :: cs) from rfl]
      at hmatch ⊢
    rw [findFileIdL_cons, hmatch]

/-- The relay's footer pattern recovers the embedded file id whenever the id
is a nonempty run of word characters. -/
lemma findFileId_footer (fid : String) (h1 : fid.data ≠ [])
    (h2 : fid.data.all isWordChar = true) :
    findFileId ("Processed by DS | File ID: " ++ fid) = some fid := by
  have hdata : ("Processed by DS | File ID: " ++ fid).data
      = 'P' :: 'r' :: 'o' :: 'c' :: 'e' :: 's' :: 's' :: 'e' :: 'd' :: ' ' :: 'b' :: 'y' :: ' '
        :: 'D' :: 'S' :: ' ' :: '|' :: ' ' :: (fileIdLit ++ fid.data) := by
    rw [String.data_append]; rfl
  rw [findFileId, hdata]
  rw [findFileIdL_cons_of_ne _ _ (by decide), findFileIdL_cons_of_ne _ _ (by decide),
    findFileIdL_cons_of_ne _ _ (by decide), findFileIdL_cons_of_ne _ _ (by decide),
    findFileIdL_cons_of_ne _ _ (by decide), findFileIdL_cons_of_ne _ _ (by decide),
    findFileIdL_cons_of_ne _ _ (by decide), findFileIdL_cons_of_ne _ _ (by decide),
    findFileIdL_cons_of_ne _ _ (by decide), findFileIdL_cons_of_ne _ _ (by decide),
    findFileIdL_cons_of_ne _ _ (by decide), findFileIdL_cons_of_ne _ _ (by decide),
    findFileIdL_cons_of_ne _ _ (by decide), findFileIdL_cons_of_ne _ _ (by decide),
    findFileIdL_cons_of_ne _ _ (by decide), findFileIdL_cons_of_ne _ _ (by decide),
    findFileIdL_cons_of_ne _ _ (by decide), findFileIdL_cons_of_ne _ _ (by decide)]
  rw [findFileIdL_lit fid.data h1 h2]
  rfl

/-- `getOrCreateFolder` yields an id whenever the create call succeeds, and
never touches the file table. -/
lemma getOrCreateFolder_some (env : SubmitEnv) (st : DriveState) (n root : String)
    (hc : env.createFolderOk = true) :
    ∃ tgt st1 effs1, getOrCreateFolder env st n root = (some tgt, st1, effs1)
      ∧ st1.files = st.files := by
  rw [getOrCreateFolder]
  cases hfind : st.folders.find? (fun f =>
      f.title == stripQuotes n && f.parent == root && !f.trashed) with
  | none =>
    rw [hc]
    exact ⟨env.freshFolderId, _, _, rfl, rfl⟩
  | some f => exact ⟨f.id, st, _, rfl, rfl⟩

/-- The file table is untouched by `getOrCreateFolder`, so metadata lookups
are preserved. -/
lemma getFileMetadata_congr {st st1 : DriveState} (h : st1.files = st.files) :
    ∀ fid, getFileMetadata st1 fid = getFileMetadata st fid := by
  intro fid
  rw [getFileMetadata, getFileMetadata, h]

/-- `doPost` on a request that passes validation, finds the file and resolves
the destination folder: the rename patch and the move are both issued (in
that order, after the metadata read and the folder resolution), the reported
intent is `success` exactly when the move call succeeds, and the store is
updated by whichever of the two patches succeeded. -/
lemma doPost_reaches_move (env : SubmitEnv) (st : DriveState) (req : CommitRequest)
    (root fid0 : String) (meta : DriveFileMeta) (tgt : String) (st1 : DriveState)
    (effs1 : List SubmitEffect)
    (hroot : env.destRoot = some root)
    (hfid : req.fileId = some fid0)
    (hfid1 : (jsTrim fid0 == "") = false)
    (hfn : jsTruthy req.folderName = true)
    (hnn : jsTruthy req.newFileName = true)
    (hmeta : getFileMetadata st (jsTrim fid0) = some meta)
    (hfolder : getOrCreateFolder env st (req.folderName.getD "") root
      = (some tgt, st1, effs1)) :
    doPost env st req
      = submitFinish (if env.moveOk then SubmitIntent.success else SubmitIntent.moveError)
          (SubmitEffect.getMetadata (jsTrim fid0) :: effs1 ++
            [SubmitEffect.patchTitleDescription (jsTrim fid0) (req.newFileName.getD "") "",
             SubmitEffect.move (jsTrim fid0) tgt meta.parents])
          (let st2 := if env.renameOk
              then applyPatch st1 (jsTrim fid0) (req.newFileName.getD "") "" else st1
           if env.moveOk then applyMove st2 (jsTrim fid0) tgt meta.parents else st2) := by
  rw [doPost, hroot, hfid]
  simp only [show Option.map jsTrim (some fid0) = some (jsTrim fid0) from rfl]
  rw [show jsTruthy (some (jsTrim fid0)) = true from by simp [jsTruthy, hfid1], hfn, hnn]
  simp only [Bool.and_self, Bool.and_true, Bool.true_and, Bool.not_true, Bool.false_eq_true,
    if_false]
  simp only [show (some (jsTrim fid0)).getD "" = jsTrim fid0 from rfl]
  rw [hmeta, hfolder]
  cases hmv : env.moveOk <;> simp [submitFinish, hmv]

/-- The patch never changes an entry's key. -/
lemma patchEntry_fst (fid t d : String) (kv : String × DriveFileMeta) :
    (patchEntry fid t d kv).fst = kv.fst := by
  rw [patchEntry]
  by_cases h : (kv.fst == fid) = true
  · rw [if_pos h]
  · rw [if_neg h]

/-- Keyed lookup through the patched file table, at the patched key. -/
lemma find_map_patch (fid t d : String) (l : List (String × DriveFileMeta)) :
    (l.map (patchEntry fid t d)).find? (fun kv => kv.fst == fid)
      = (l.find? (fun kv => kv.fst == fid)).map (patchEntry fid t d) := by
  induction l with
  | nil => rfl
  | cons kv rest ih =>
    rw [List.map_cons]
    by_cases hk : (kv.fst == fid) = true
    · have h1 : List.find? (fun x => x.fst == fid) (patchEntry fid t d kv :: rest.map (patchEntry fid t d))
          = some (patchEntry fid t d kv) :=
        List.find?_cons_of_pos _ (by rw [patchEntry_fst]; exact hk)
      have h2 : List.find? (fun x => x.fst == fid) (kv :: rest) = some kv :=
        List.find?_cons_of_pos _ hk
      rw [h1, h2]
      rfl
    · have h1 : List.find? (fun x => x.fst == fid) (patchEntry fid t d kv :: rest.map (patchEntry fid t d))
          = List.find? (fun x => x.fst == fid) (rest.map (patchEntry fid t d)) :=
        List.find?_cons_of_neg _ (by rw [patchEntry_fst]; exact hk)
      have h2 : List.find? (fun x => x.fst == fid) (kv :: rest)
          = List.find? (fun x => x.fst == fid) rest :=
        List.find?_cons_of_neg _ hk
      rw [h1, h2]
      exact ih

/-- Keyed lookup through the patched file table, at any other key. -/
lemma find_map_patch_other (fid t d other : String) (h : (other == fid) = false)
    (l : List (String × DriveFileMeta)) :
    (l.map (patchEntry fid t d)).find? (fun kv => kv.fst == other)
      = l.find? (fun kv => kv.fst == other) := by
  induction l with
  | nil => rfl
  | cons kv rest ih =>
    rw [List.map_cons]
    by_cases hko : (kv.fst == other) = true
    · have h1 : List.find? (fun x => x.fst == other) (patchEntry fid t d kv :: rest.map (patchEntry fid t d))
          = some (patchEntry fid t d kv) :=
        List.find?_cons_of_pos _ (by rw [patchEntry_fst]; exact hko)
      have h2 : List.find? (fun x => x.fst == other) (kv :: rest) = some kv :=
        List.find?_cons_of_pos _ hko
      rw [h1, h2]
      have hkv : kv.fst = other := beq_iff_eq.mp hko
      have hkf : (kv.fst == fid) = false := by rw [hkv]; exact h
      rw [patchEntry, hkf]
      rfl
    · have h1 : List.find? (fun x => x.fst == other) (patchEntry fid t d kv :: rest.map (patchEntry fid t d))
          = List.find? (fun x => x.fst == other) (rest.map (patchEntry fid t d)) :=
        List.find?_cons_of_neg _ (by rw [patchEntry_fst]; exact hko)
      have h2 : List.find? (fun x => x.fst == other) (kv :: rest)
          = List.find? (fun x => x.fst == other) rest :=
        List.find?_cons_of_neg _ hko
      rw [h1, h2]
      exact ih

/-- The rename/clear patch rewrites the addressed file's title and
description and nothing else: the lookup of the patched file returns the old
metadata with only those two fields replaced. -/
lemma getFileMetadata_applyPatch_self (st : DriveState) (fid t d : String) :
    getFileMetadata (applyPatch st fid t d) fid
      = (getFileMetadata st fid).map
          (fun m => { m with title := t, description := some d }) := by
  rw [getFileMetadata, getFileMetadata,
    show (applyPatch st fid t d).files = st.files.map (patchEntry fid t d) from rfl,
    find_map_patch]
  cases hf : st.files.find? (fun kv => kv.fst == fid) with
  | none => rfl
  | some kv =>
    have hk : (kv.fst == fid) = true := by simpa using List.find?_some hf
    simp [patchEntry, hk]

/-- The rename/clear patch leaves every other file's metadata unchanged. -/
lemma getFileMetadata_applyPatch_other (st : DriveState) (fid t d other : String)
    (h : (other == fid) = false) :
    getFileMetadata (applyPatch st fid t d) other = getFileMetadata st other := by
  rw [getFileMetadata, getFileMetadata,
    show (applyPatch st fid t d).files = st.files.map (patchEntry fid t d) from rfl,
    find_map_patch_other fid t d other h]

/-- Both marker strings the Scanner writes carry the `DS_` prefix the skip
check tests. -/
lemma dsPrefix_pending (f : String) :
    strStartsWith ("DS_PENDING_RENAME::" ++ f) "DS_" = true := by
  rw [strStartsWith, String.data_append]
  rfl

/-- A run over a page of uniformly `DS_`-marked entries does nothing. -/
lemma scanLoop_all_marked (cfg : ScannerCfg) (classify : FileEntry → ClassResult) :
    ∀ (page : List FileEntry) (count : Nat), page.all dsMarked = true →
      scanLoop cfg classify page count = [] := by
  intro page
  induction page with
  | nil => intro count _; rfl
  | cons f rest ih =>
    intro count h
    simp only [List.all_cons, Bool.and_eq_true] at h
    obtain ⟨h1, h2⟩ := h
    have hskip : skipEntry f = true := by rw [skipEntry, h1, Bool.or_true]
    rw [scanLoop, hskip]
    simp only [if_true]
    exact ih count h2

/-! ## The claims -/

/-- C4: invoking the Scanner a second time on an unchanged inbox with no new
documents leaves every marker unchanged and emits no duplicate
notifications: (1) every marker `processFile` writes starts with the `DS_`
prefix the skip check tests, and (2) a run over a page in which every
document already carries a `DS_` marker emits no notification and writes no
marker. -/
theorem C4_second_run_idempotent :
    (∀ (cfg : ScannerCfg) (file : FileEntry) (cls : ClassResult) (fid d : String),
       ScanEffect.setDescription fid d ∈ processFile cfg file cls →
       strStartsWith d "DS_" = true)
    ∧ (∀ (cfg : ScannerCfg) (classify : FileEntry → ClassResult) (page : List FileEntry),
        page.all dsMarked = true →
        checkNewFilesAndNotify cfg classify page = []) := by
  constructor
  · intro cfg file cls fid d hmem
    rw [processFile] at hmem
    by_cases hc : (!(jsTruthy cfg.projectId && jsTruthy cfg.location)) = true
    · rw [if_pos hc] at hmem
      exact absurd hmem (List.not_mem_nil _)
    · rw [if_neg hc] at hmem
      by_cases hs : classifySuccess cls = true
      · rw [if_pos hs] at hmem
        simp only [sendDiscordNotification] at hmem
        by_cases hb : (jsTruthy cfg.botApiUrl && jsTruthy cfg.gasApiKey) = true
        · rw [if_pos hb] at hmem
          simp only [List.mem_append, List.mem_singleton, List.mem_cons,
            List.not_mem_nil, or_false] at hmem
          rcases hmem with hmem | hmem
          · exact absurd hmem (by simp)
          · rw [ScanEffect.setDescription.injEq] at hmem
            rw [hmem.2]
            exact dsPrefix_pending _
        · rw [if_neg hb] at hmem
          simp only [List.nil_append, List.mem_singleton] at hmem
          rw [ScanEffect.setDescription.injEq] at hmem
          rw [hmem.2]
          exact dsPrefix_pending _
      · rw [if_neg hs] at hmem
        simp only [sendDiscordNotification] at hmem
        by_cases hb : (jsTruthy cfg.botApiUrl && jsTruthy cfg.gasApiKey) = true
        · rw [if_pos hb] at hmem
          simp only [List.mem_append, List.mem_singleton, List.mem_cons,
            List.not_mem_nil, or_false] at hmem
          rcases hmem with hmem | hmem
          · exact absurd hmem (by simp)
          · rw [ScanEffect.setDescription.injEq] at hmem
            rw [hmem.2]
            rfl
        · rw [if_neg hb] at hmem
          simp only [List.nil_append, List.mem_singleton] at hmem
          rw [ScanEffect.setDescription.injEq] at hmem
          rw [hmem.2]
          rfl
  · intro cfg classify page h
    rw [checkNewFilesAndNotify]
    by_cases hi : (!(jsTruthy cfg.inboxFolderId)) = true
    · rw [if_pos hi]
    · rw [if_neg hi]
      exact scanLoop_all_marked cfg classify page 0 h

/-- Witness for C4 at a concrete configuration, document and classifier
outcome. -/
theorem C4_witness :
    strStartsWith "DS_PROCESSED_MANUAL_REVIEW" "DS_" = true
    ∧ checkNewFilesAndNotify
        ⟨some "inbox-1", some "proj", some "loc", some "https://bot", some "key"⟩
        (fun _ => ⟨none, none⟩)
        [⟨"doc-4", "a.pdf", some "DS_PROCESSED_MANUAL_REVIEW", some 4, ⟨2024, 3, 1⟩⟩]
      = [] := by
  constructor
  · exact C4_second_run_idempotent.1
      ⟨some "inbox-1", some "proj", some "loc", some "https://bot", some "key"⟩
      ⟨"doc-4", "a.pdf", some "DS_PROCESSED_MANUAL_REVIEW", some 4, ⟨2024, 3, 1⟩⟩
      ⟨none, none⟩ "doc-4" "DS_PROCESSED_MANUAL_REVIEW" (by decide)
  · exact C4_second_run_idempotent.2
      ⟨some "inbox-1", some "proj", some "loc", some "https://bot", some "key"⟩
      (fun _ => ⟨none, none⟩)
      [⟨"doc-4", "a.pdf", some "DS_PROCESSED_MANUAL_REVIEW", some 4, ⟨2024, 3, 1⟩⟩]
      (by decide)

/-- Modelled from the spec, for comparison only: §3's marker grammar maps
`SKIP::<reason>` to the `Skipped` state, so a marker denotes `Skipped`
exactly when it starts with `SKIP::`. -/
def specIsSkippedMarker (m : String) : Bool := strStartsWith m "SKIP::"

/-- Scanner configuration for the C3 scenario. -/
def c3cfg : ScannerCfg :=
  ⟨some "inbox-1", some "proj", some "loc", some "https://bot", some "key"⟩

/-- Document for the C3 scenario. -/
def c3file : FileEntry := ⟨"doc-3", "notes.txt", none, some 7, ⟨2024, 3, 1⟩⟩

/-- C3 (amended): for a document whose mime type is outside the supported
set the classifier returns `手動レビュー (非対応ファイル)` without calling the
Vertex AI model, and the Scanner then marks the document
`DS_PROCESSED_MANUAL_REVIEW` (ManualReview) and surfaces the
unsupported-type reason in the notification category — not a `Skipped`
marker. -/
theorem C3_unsupported_mime_manual_review
    (env : ClassifyEnv) (mt title0 : String) (du : Option String) (dOk : Bool)
    (reply : VertexReply) (cfg : ScannerCfg) (file : FileEntry)
    (hp : jsTruthy env.projectId = true) (hl : jsTruthy env.location = true)
    (hm : supportedMimeTypes.contains mt = false)
    (hcp : jsTruthy cfg.projectId = true) (hcl : jsTruthy cfg.location = true) :
    classifyFileWithGemini_GAS env (MetaFetch.ok mt title0 du) dOk reply
      = (⟨some "手動レビュー (非対応ファイル)", none⟩, false)
    ∧ processFile cfg file ⟨some "手動レビュー (非対応ファイル)", none⟩
      = sendDiscordNotification cfg
          { title := "AI Classification Failed",
            description := "Warning: Could not classify document: " ++ file.title ++
              ". Reason: " ++ "手動レビュー (非対応ファイル)" ++ ". Manual review needed.",
            fileName := file.title, fileId := file.id,
            category := "手動レビュー (非対応ファイル)", newFileName := file.title }
        ++ [ScanEffect.setDescription file.id "DS_PROCESSED_MANUAL_REVIEW"] := by
  constructor
  · have hcond : (!(jsTruthy env.projectId && jsTruthy env.location)) = false := by
      rw [hp, hl]
      rfl
    rw [classifyFileWithGemini_GAS.eq_def]
    rw [hcond]
    simp only [Bool.false_eq_true, if_false]
    rw [hm]
    rfl
  · have hcond : (!(jsTruthy cfg.projectId && jsTruthy cfg.location)) = false := by
      rw [hcp, hcl]
      rfl
    rw [processFile, hcond]
    simp only [Bool.false_eq_true, if_false]
    rfl

/-- Witness for C3 at a concrete `text/plain` document. -/
theorem C3_witness :
    classifyFileWithGemini_GAS ⟨some "proj", some "loc"⟩
        (MetaFetch.ok "text/plain" "notes.txt" (some "https://dl")) true
        VertexReply.garbage
      = (⟨some "手動レビュー (非対応ファイル)", none⟩, false)
    ∧ processFile c3cfg c3file ⟨some "手動レビュー (非対応ファイル)", none⟩
      = sendDiscordNotification c3cfg
          { title := "AI Classification Failed",
            description := "Warning: Could not classify document: " ++ c3file.title ++
              ". Reason: " ++ "手動レビュー (非対応ファイル)" ++ ". Manual review needed.",
            fileName := c3file.title, fileId := c3file.id,
            category := "手動レビュー (非対応ファイル)", newFileName := c3file.title }
        ++ [ScanEffect.setDescription c3file.id "DS_PROCESSED_MANUAL_REVIEW"] :=
  C3_unsupported_mime_manual_review ⟨some "proj", some "loc"⟩ "text/plain" "notes.txt"
    (some "https://dl") true VertexReply.garbage c3cfg c3file
    (by decide) (by decide) (by decide) (by decide) (by decide)

/-- C3 counterexample: at a concrete unsupported-mime document the Vertex AI
model is not called, but the marker the Scanner writes is
`DS_PROCESSED_MANUAL_REVIEW`, which is not a spec `Skipped` marker
(`SKIP::<reason>`) — refuting "marks the document Skipped with a reason". -/
theorem C3_counterexample :
    (classifyFileWithGemini_GAS ⟨some "proj", some "loc"⟩
        (MetaFetch.ok "text/plain" "notes.txt" (some "https://dl")) true
        VertexReply.garbage).2 = false
    ∧ ScanEffect.setDescription "doc-3" "DS_PROCESSED_MANUAL_REVIEW"
        ∈ processFile c3cfg c3file
            (classifyFileWithGemini_GAS ⟨some "proj", some "loc"⟩
              (MetaFetch.ok "text/plain" "notes.txt" (some "https://dl")) true
              VertexReply.garbage).1
    ∧ specIsSkippedMarker "DS_PROCESSED_MANUAL_REVIEW" = false := by
  decide

/-- Authentication environment for the C8 witness. -/
def c8env : AuthEnv :=
  ⟨some ⟨"pk", "svc@example", "https://token"⟩, id, fun s _ => s, fun _ => some "tok-1"⟩

/-- C8: the assertion's expiry claim is exactly issued-at + 3600 seconds;
after a token exchange the token is cached with absolute expiry
`now + 3300` (3300 < 3600); and any later call before that expiry returns
the cached token without performing another exchange. -/
theorem C8_token_expiry_and_cache
    (k : ServiceAccountKey) (now : Nat)
    (env : AuthEnv) (cache : TokenCache) (tok : String) (c2 : TokenCache) (now2 : Nat)
    (hex : getGcpAuthToken env cache now = Except.ok (tok, c2, true))
    (h2 : now2 < now + 3300) :
    (claimSetFor k now).exp = (claimSetFor k now).iat + 3600
    ∧ c2.entry = some (tok, now + 3300)
    ∧ 3300 < 3600
    ∧ getGcpAuthToken env c2 now2 = Except.ok (tok, c2, false) := by
  rw [getGcpAuthToken] at hex
  cases hget : cacheGet cache now with
  | some t =>
    simp only [hget, Except.ok.injEq, Prod.mk.injEq] at hex
    exact absurd hex.2.2 (by decide)
  | none =>
    simp only [hget] at hex
    cases hkey : env.serviceAccountKey with
    | none =>
      simp only [hkey] at hex
      exact absurd hex (by simp)
    | some k0 =>
      simp only [hkey] at hex
      cases hxc : env.exchange (jwtFor env k0 now) with
      | none =>
        simp only [hxc] at hex
        exact absurd hex (by simp)
      | some a =>
        simp only [hxc, Except.ok.injEq, Prod.mk.injEq] at hex
        obtain ⟨hta, htc, _⟩ := hex
        refine ⟨rfl, ?_, by omega, ?_⟩
        · rw [← htc, ← hta]
        · rw [getGcpAuthToken]
          have hhit : cacheGet c2 now2 = some tok := by
            rw [cacheGet, ← htc, ← hta]
            simp only [if_pos h2]
          rw [hhit]

/-- Witness for C8: first call at second 100 exchanges and caches until
second 3400; a second call at second 200 reuses the cached token. -/
theorem C8_witness :
    (claimSetFor ⟨"pk", "svc@example", "https://token"⟩ 100).exp
      = (claimSetFor ⟨"pk", "svc@example", "https://token"⟩ 100).iat + 3600
    ∧ (TokenCache.mk (some ("tok-1", 100 + 3300))).entry = some ("tok-1", 100 + 3300)
    ∧ 3300 < 3600
    ∧ getGcpAuthToken c8env ⟨some ("tok-1", 100 + 3300)⟩ 200
      = Except.ok ("tok-1", ⟨some ("tok-1", 100 + 3300)⟩, false) :=
  C8_token_expiry_and_cache ⟨"pk", "svc@example", "https://token"⟩ 100 c8env ⟨none⟩
    "tok-1" ⟨some ("tok-1", 100 + 3300)⟩ 200 rfl (by omega)

/-- Store for the C5 evaluation. -/
def c5state : DriveState :=
  ⟨[("doc-5", ⟨"old.pdf", some "DS_PENDING_RENAME::x.pdf", ["inbox-1"],
      "application/pdf", some 5, ⟨2024, 3, 1⟩⟩)], []⟩

/-- C5 (code-bug evaluation): a commit request whose `fileId` trims to empty
and whose `newFileName` is absent is rejected before any Drive call — no
metadata read, no folder creation, no rename, no move, store unchanged — and
the handler reaches the InvalidRequest call site; but `createJsonResponse`
throws on the `ContentService.MmeType` typo, so the InvalidRequest JSON never
reaches the caller. -/
theorem C5_invalid_request_eval :
    doPost ⟨some "root-1", "fld-fresh", true, true, true⟩ c5state
        ⟨some "   ", some "請求書・領収書", none⟩
      = { intent := SubmitIntent.invalidRequest, effects := [], state := c5state,
          response := Except.error
            (JsError.typeError "Cannot read properties of undefined (reading JSON)") } := rfl

/-- Store for the C6 evaluation (destination folder already exists). -/
def c6state : DriveState :=
  ⟨[("doc-6", ⟨"scan.pdf", some "DS_PENDING_RENAME::2024-03-01_電気代_請求書.pdf",
      ["inbox-1"], "application/pdf", some 5, ⟨2024, 3, 1⟩⟩)],
   [⟨"fld-6", "請求書・領収書", "root-1", false⟩]⟩

/-- C6 (code-bug evaluation): with the rename patch failing and the move
succeeding, `doPost` still issues the move after the rename attempt and
reaches the success call site — but `createJsonResponse` throws on the
`ContentService.MmeType` typo, so no success response is returned; moreover
even the intended success body does not contain the substring `"Success"`
the relay tests for. -/
theorem C6_rename_failure_eval :
    doPost ⟨some "root-1", "fld-fresh", true, false, true⟩ c6state
        ⟨some "doc-6", some "請求書・領収書", some "2024-03-01_電気代_請求書.pdf"⟩
      = { intent := SubmitIntent.success,
          effects := [SubmitEffect.getMetadata "doc-6",
            SubmitEffect.searchFolder "請求書・領収書" "root-1",
            SubmitEffect.patchTitleDescription "doc-6" "2024-03-01_電気代_請求書.pdf" "",
            SubmitEffect.move "doc-6" "fld-6" ["inbox-1"]],
          state := ⟨[("doc-6", ⟨"scan.pdf",
              some "DS_PENDING_RENAME::2024-03-01_電気代_請求書.pdf",
              ["fld-6"], "application/pdf", some 5, ⟨2024, 3, 1⟩⟩)],
            [⟨"fld-6", "請求書・領収書", "root-1", false⟩]⟩,
          response := Except.error
            (JsError.typeError "Cannot read properties of undefined (reading JSON)") }
    ∧ jsIncludes (responseText SubmitIntent.success) "Success" = false :=
  ⟨rfl, by decide⟩

/-- `getOrCreateFolder` never touches the file table. -/
lemma getOrCreateFolder_files (env : SubmitEnv) (st : DriveState) (n root : String) :
    (getOrCreateFolder env st n root).2.1.files = st.files := by
  rw [getOrCreateFolder]
  cases hf : st.folders.find? (fun f =>
      f.title == stripQuotes n && f.parent == root && !f.trashed) with
  | some f => simp only [hf]
  | none =>
    simp only [hf]
    by_cases hc : env.createFolderOk = true
    · rw [if_pos hc]
    · rw [if_neg hc]

/-- C9: the commit's rename patch modifies exactly the addressed document's
title and description (setting the description — the persisted marker — to
the empty string), it is issued before the relocate request, and a document
whose relocate subsequently fails after a successful rename patch is left
with an empty marker, no longer carrying `PENDING_RENAME`. -/
theorem C9_patch_frame_and_order
    (env : SubmitEnv) (st : DriveState) (req : CommitRequest)
    (root fid0 tgt : String) (meta : DriveFileMeta) (st1 : DriveState)
    (effs1 : List SubmitEffect)
    (s : DriveState) (pfid pt pd other : String)
    (hroot : env.destRoot = some root)
    (hfid : req.fileId = some fid0)
    (hfid1 : (jsTrim fid0 == "") = false)
    (hfn : jsTruthy req.folderName = true)
    (hnn : jsTruthy req.newFileName = true)
    (hmeta : getFileMetadata st (jsTrim fid0) = some meta)
    (hfolder : getOrCreateFolder env st (req.folderName.getD "") root
      = (some tgt, st1, effs1))
    (hother : (other == pfid) = false) :
    (doPost env st req).effects
      = SubmitEffect.getMetadata (jsTrim fid0) :: effs1 ++
          [SubmitEffect.patchTitleDescription (jsTrim fid0) (req.newFileName.getD "") "",
           SubmitEffect.move (jsTrim fid0) tgt meta.parents]
    ∧ getFileMetadata (applyPatch s pfid pt pd) pfid
        = (getFileMetadata s pfid).map
            (fun m => { m with title := pt, description := some pd })
    ∧ getFileMetadata (applyPatch s pfid pt pd) other = getFileMetadata s other
    ∧ (env.renameOk = true → env.moveOk = false →
        getFileMetadata (doPost env st req).state (jsTrim fid0)
          = some { meta with title := req.newFileName.getD "", description := some "" }) := by
  have hrun := doPost_reaches_move env st req root fid0 meta tgt st1 effs1
    hroot hfid hfid1 hfn hnn hmeta hfolder
  have hfiles : st1.files = st.files := by
    have h1 : st1 = (getOrCreateFolder env st (req.folderName.getD "") root).2.1 := by
      rw [hfolder]
    rw [h1]
    exact getOrCreateFolder_files env st (req.folderName.getD "") root
  refine ⟨?_, getFileMetadata_applyPatch_self s pfid pt pd,
    getFileMetadata_applyPatch_other s pfid pt pd other hother, ?_⟩
  · rw [hrun]
    rfl
  · intro hrn hmv
    rw [hrun, hrn, hmv]
    simp only [if_true, Bool.false_eq_true, if_false]
    rw [submitFinish]
    rw [getFileMetadata_applyPatch_self]
    rw [getFileMetadata_congr hfiles (jsTrim fid0), hmeta]
    rfl

/-- Store for the C9 witness (destination folder already exists). -/
def c9state : DriveState :=
  ⟨[("doc-9", ⟨"scan.pdf", some "DS_PENDING_RENAME::2024-03-01_水道代_請求書.pdf",
      ["inbox-1"], "application/pdf", some 9, ⟨2024, 3, 1⟩⟩)],
   [⟨"fld-9", "請求書・領収書", "root-1", false⟩]⟩

/-- Witness for C9 at a concrete commit whose rename patch succeeds and whose
move fails. -/
theorem C9_witness :
    (doPost ⟨some "root-1", "fld-fresh", true, true, false⟩ c9state
        ⟨some "doc-9", some "請求書・領収書", some "2024-03-01_水道代_請求書.pdf"⟩).effects
      = SubmitEffect.getMetadata "doc-9" ::
          [SubmitEffect.searchFolder "請求書・領収書" "root-1"] ++
          [SubmitEffect.patchTitleDescription "doc-9" "2024-03-01_水道代_請求書.pdf" "",
           SubmitEffect.move "doc-9" "fld-9" ["inbox-1"]]
    ∧ getFileMetadata (applyPatch c9state "doc-9" "2024-03-01_水道代_請求書.pdf" "") "doc-9"
        = (getFileMetadata c9state "doc-9").map
            (fun m => { m with title := "2024-03-01_水道代_請求書.pdf", description := some "" })
    ∧ getFileMetadata (applyPatch c9state "doc-9" "2024-03-01_水道代_請求書.pdf" "") "doc-x"
        = getFileMetadata c9state "doc-x"
    ∧ getFileMetadata
        (doPost ⟨some "root-1", "fld-fresh", true, true, false⟩ c9state
          ⟨some "doc-9", some "請求書・領収書", some "2024-03-01_水道代_請求書.pdf"⟩).state "doc-9"
      = some ⟨"2024-03-01_水道代_請求書.pdf", some "", ["inbox-1"],
          "application/pdf", some 9, ⟨2024, 3, 1⟩⟩ := by
  have h := C9_patch_frame_and_order
    ⟨some "root-1", "fld-fresh", true, true, false⟩ c9state
    ⟨some "doc-9", some "請求書・領収書", some "2024-03-01_水道代_請求書.pdf"⟩
    "root-1" "doc-9" "fld-9"
    ⟨"scan.pdf", some "DS_PENDING_RENAME::2024-03-01_水道代_請求書.pdf",
      ["inbox-1"], "application/pdf", some 9, ⟨2024, 3, 1⟩⟩
    c9state [SubmitEffect.searchFolder "請求書・領収書" "root-1"]
    c9state "doc-9" "2024-03-01_水道代_請求書.pdf" "" "doc-x"
    rfl rfl (by decide) (by decide) (by decide) rfl rfl (by decide)
  exact ⟨h.1, h.2.1, h.2.2.1, h.2.2.2 rfl rfl⟩

/-- The empty pattern is an infix of anything. -/
lemma isInfixOfCh_nil (l : List Char) : isInfixOfCh [] l = true := by
  cases l with
  | nil => rfl
  | cons c cs => rfl

/-- A boolean prefix extends across an appended tail. -/
lemma isPrefixOf_append_of_isPrefixOf {pat a : List Char} (b : List Char)
    (h : pat.isPrefixOf a = true) : pat.isPrefixOf (a ++ b) = true := by
  induction a generalizing pat with
  | nil =>
    cases pat with
    | nil => cases b <;> rfl
    | cons p ps => exact absurd h (by simp [List.isPrefixOf])
  | cons x xs ih =>
    cases pat with
    | nil => rfl
    | cons p ps =>
      simp only [List.isPrefixOf, Bool.and_eq_true] at h
      simp only [List.cons_append, List.isPrefixOf, Bool.and_eq_true]
      exact ⟨h.1, ih h.2⟩

/-- `startsWith` through a double append whose first component has the
pattern as a prefix. -/
lemma strStartsWith_append2 (pat a b c : String)
    (h : pat.data.isPrefixOf a.data = true) :
    strStartsWith (a ++ b ++ c) pat = true := by
  rw [strStartsWith, String.data_append, String.data_append]
  exact isPrefixOf_append_of_isPrefixOf _ (isPrefixOf_append_of_isPrefixOf _ h)

/-- A decomposition of the scanned string witnesses `includes`. -/
lemma jsIncludes_of_decomp (s pre mid suf : String) (h : s.data = pre.data ++ (mid.data ++ suf.data)) :
    jsIncludes s mid = true := by
  rw [jsIncludes, h]
  exact isInfixOfCh_append _ _ _

/-- C2 (amended): whenever the commit response body does not contain the
substring "Success", the relay edits the original message to the failure
state and that edit embeds the response body truncated to its first 1500
characters; but the document's marker does not remain `AwaitingApproval`
when the failure is the relocate step after a successful rename patch — the
marker has then been cleared to the empty string (it survives only when the
handler fails before the rename patch). -/
theorem C2_commit_failure_edit_and_marker
    (category body : String)
    (env : SubmitEnv) (st : DriveState) (req : CommitRequest)
    (root fid0 tgt : String) (meta : DriveFileMeta) (st1 : DriveState)
    (effs1 : List SubmitEffect)
    (hb : jsIncludes body "Success" = false)
    (hroot : env.destRoot = some root)
    (hfid : req.fileId = some fid0)
    (hfid1 : (jsTrim fid0 == "") = false)
    (hfn : jsTruthy req.folderName = true)
    (hnn : jsTruthy req.newFileName = true)
    (hmeta : getFileMetadata st (jsTrim fid0) = some meta)
    (hfolder : getOrCreateFolder env st (req.folderName.getD "") root
      = (some tgt, st1, effs1))
    (hrn : env.renameOk = true) (hmv : env.moveOk = false) :
    strStartsWith (approveFollowUpContent category body) "❌ **[DS] 整理エラー**" = true
    ∧ jsIncludes (approveFollowUpContent category body) (substr0 body 1500) = true
    ∧ (doPost env st req).intent = SubmitIntent.moveError
    ∧ getFileMetadata (doPost env st req).state (jsTrim fid0)
        = some { meta with title := req.newFileName.getD "", description := some "" } := by
  have hrun := doPost_reaches_move env st req root fid0 meta tgt st1 effs1
    hroot hfid hfid1 hfn hnn hmeta hfolder
  have hfiles : st1.files = st.files := by
    have h1 : st1 = (getOrCreateFolder env st (req.folderName.getD "") root).2.1 := by
      rw [hfolder]
    rw [h1]
    exact getOrCreateFolder_files env st (req.folderName.getD "") root
  have hcontent : approveFollowUpContent category body
      = "❌ **[DS] 整理エラー**\nGASからの応答:\n```\n" ++
        (let errorDetails := jsOrS body "No response data"
         if errorDetails.length > 1500 then
           substr0 errorDetails 1500 ++ "\n...(詳細はCloud Runログを確認)"
         else errorDetails) ++ "\n```" := by
    rw [approveFollowUpContent, hb, Bool.and_false]
    rfl
  refine ⟨?_, ?_, ?_, ?_⟩
  · rw [hcontent]
    exact strStartsWith_append2 _ _ _ _ (by decide)
  · rw [hcontent]
    by_cases hbe : (body == "") = true
    · have hbody : body = "" := beq_iff_eq.mp hbe
      rw [hbody]
      rw [show substr0 "" 1500 = "" from rfl]
      rw [jsIncludes]
      exact isInfixOfCh_nil _
    · have hbe2 : (body == "") = false := by
        cases hq : (body == "")
        · rfl
        · exact absurd hq hbe
      rw [show jsOrS body "No response data" = body from by rw [jsOrS, hbe2]; rfl]
      by_cases hlen : body.length > 1500
      · rw [if_pos hlen]
        apply jsIncludes_of_decomp _ "❌ **[DS] 整理エラー**\nGASからの応答:\n```\n" _
          ("\n...(詳細はCloud Runログを確認)" ++ "\n```")
        simp [String.data_append, List.append_assoc]
      · rw [if_neg hlen]
        have hdlen : body.data.length ≤ 1500 := by
          rw [show body.data.length = body.length from rfl]
          omega
        have hsub : substr0 body 1500 = body := by
          rw [substr0, List.take_of_length_le hdlen]
        rw [hsub]
        apply jsIncludes_of_decomp _ "❌ **[DS] 整理エラー**\nGASからの応答:\n```\n" _ "\n```"
        simp [String.data_append, List.append_assoc]
  · rw [hrun, hmv]
    simp only [Bool.false_eq_true, if_false]
    rfl
  · rw [hrun, hrn, hmv]
    simp only [if_true, Bool.false_eq_true, if_false]
    rw [submitFinish]
    rw [getFileMetadata_applyPatch_self]
    rw [getFileMetadata_congr hfiles (jsTrim fid0), hmeta]
    rfl

/-- Handler environment for the C2 scenario (move fails). -/
def c2env : SubmitEnv := ⟨some "root-1", "fld-fresh", true, true, false⟩

/-- Store for the C2 scenario. -/
def c2state : DriveState :=
  ⟨[("doc-2", ⟨"scan.pdf", some "DS_PENDING_RENAME::2024-03-01_電気代_請求書.pdf",
      ["inbox-1"], "application/pdf", some 5, ⟨2024, 3, 1⟩⟩)],
   [⟨"fld-2", "請求書・領収書", "root-1", false⟩]⟩

/-- Commit request for the C2 scenario. -/
def c2req : CommitRequest :=
  ⟨some "doc-2", some "請求書・領収書", some "2024-03-01_電気代_請求書.pdf"⟩

/-- Witness for C2 at a concrete commit failing at the move step, with the
intended moveError body as the observed response text. -/
theorem C2_witness :
    strStartsWith (approveFollowUpContent "請求書・領収書"
        (responseText SubmitIntent.moveError)) "❌ **[DS] 整理エラー**" = true
    ∧ jsIncludes (approveFollowUpContent "請求書・領収書"
        (responseText SubmitIntent.moveError))
        (substr0 (responseText SubmitIntent.moveError) 1500) = true
    ∧ (doPost c2env c2state c2req).intent = SubmitIntent.moveError
    ∧ getFileMetadata (doPost c2env c2state c2req).state (jsTrim "doc-2")
        = some ⟨"2024-03-01_電気代_請求書.pdf", some "", ["inbox-1"],
            "application/pdf", some 5, ⟨2024, 3, 1⟩⟩ :=
  C2_commit_failure_edit_and_marker "請求書・領収書" (responseText SubmitIntent.moveError)
    c2env c2state c2req "root-1" "doc-2" "fld-2"
    ⟨"scan.pdf", some "DS_PENDING_RENAME::2024-03-01_電気代_請求書.pdf",
      ["inbox-1"], "application/pdf", some 5, ⟨2024, 3, 1⟩⟩
    c2state [SubmitEffect.searchFolder "請求書・領収書" "root-1"]
    (by decide) rfl rfl (by decide) (by decide) (by decide) rfl rfl rfl rfl

/-- C2 counterexample: at this concrete commit the endpoint's failure body
contains no "Success", the relay edit is the failure state — but the
document's marker is now the empty string, not the `DS_PENDING_RENAME`
marker, refuting "the document's marker remains AwaitingApproval". -/
theorem C2_counterexample :
    jsIncludes (responseText (doPost c2env c2state c2req).intent) "Success" = false
    ∧ strStartsWith (approveFollowUpContent "請求書・領収書"
        (responseText (doPost c2env c2state c2req).intent)) "❌ **[DS] 整理エラー**" = true
    ∧ (getFileMetadata (doPost c2env c2state c2req).state "doc-2").map
        DriveFileMeta.description = some (some "")
    ∧ strStartsWith "" "DS_PENDING_RENAME::" = false := by
  decide

/-- Document for the C7 scenario. -/
def c7file : FileEntry := ⟨"doc-7", "電気代スキャン.pdf", none, some 5, ⟨2024, 3, 1⟩⟩

/-- Handler environment for the C7 scenario (all Drive calls succeed). -/
def c7env : SubmitEnv := ⟨some "root-1", "fld-fresh", true, true, true⟩

/-- Store for the C7 scenario: the destination folder does not exist yet. -/
def c7state : DriveState :=
  ⟨[("doc-7", ⟨"電気代スキャン.pdf", some "DS_PENDING_RENAME::2024-03-01_電気代_請求書.pdf",
      ["inbox-1"], "application/pdf", some 5, ⟨2024, 3, 1⟩⟩)], []⟩

/-- Commit request for the C7 scenario. -/
def c7req : CommitRequest :=
  ⟨some "doc-7", some "請求書・領収書", some "2024-03-01_電気代_請求書.pdf"⟩

/-- C7: the computed final name is
`<creation-date:YYYY-MM-DD>_<suggestedName><original-extension-if-any>`; on
the concrete scenario the classifier output `請求書・領収書` /
`電気代_請求書` for a PDF created 2024-03-01 passes validation, the final
name is `2024-03-01_電気代_請求書.pdf`, and the approved commit creates the
absent `請求書・領収書` folder under the destination root, renames the
document to that exact string and relocates it into the new folder. -/
theorem C7_final_name_formula_and_scenario
    (file : FileEntry) (c n : String)
    (hc1 : (c == "") = false) (hc2 : strStartsWith c "手動レビュー" = false)
    (hn : (n == "") = false) :
    finalNewFileName file ⟨some c, some n⟩
      = formatYMD file.createdDate ++ "_" ++ n ++ jsExtension file.title
    ∧ classifyFileWithGemini_GAS ⟨some "proj", some "loc"⟩
        (MetaFetch.ok "application/pdf" "電気代スキャン.pdf" (some "https://dl")) true
        (VertexReply.output (some "請求書・領収書") (some "電気代_請求書"))
      = (⟨some "請求書・領収書", some "電気代_請求書"⟩, true)
    ∧ finalNewFileName c7file ⟨some "請求書・領収書", some "電気代_請求書"⟩
      = "2024-03-01_電気代_請求書.pdf"
    ∧ (doPost c7env c7state c7req).intent = SubmitIntent.success
    ∧ (doPost c7env c7state c7req).effects
      = [SubmitEffect.getMetadata "doc-7",
         SubmitEffect.searchFolder "請求書・領収書" "root-1",
         SubmitEffect.createFolder "請求書・領収書" "root-1",
         SubmitEffect.patchTitleDescription "doc-7" "2024-03-01_電気代_請求書.pdf" "",
         SubmitEffect.move "doc-7" "fld-fresh" ["inbox-1"]]
    ∧ (doPost c7env c7state c7req).state
      = ⟨[("doc-7", ⟨"2024-03-01_電気代_請求書.pdf", some "", ["fld-fresh"],
            "application/pdf", some 5, ⟨2024, 3, 1⟩⟩)],
         [⟨"fld-fresh", "請求書・領収書", "root-1", false⟩]⟩ := by
  refine ⟨?_, by decide, by decide, by decide, by decide, by decide⟩
  have hs : classifySuccess ⟨some c, some n⟩ = true := by
    simp only [classifySuccess, hc1, hc2, hn]
    rfl
  rw [finalNewFileName, if_pos hs, jsOr_some hn]

/-- Witness for C7 at a concrete success-branch classification. -/
theorem C7_witness :
    finalNewFileName ⟨"doc-7b", "memo.v1.pdf", none, some 1, ⟨2023, 12, 5⟩⟩
        ⟨some "その他", some "メモ"⟩
      = formatYMD ⟨2023, 12, 5⟩ ++ "_" ++ "メモ" ++ jsExtension "memo.v1.pdf" :=
  (C7_final_name_formula_and_scenario ⟨"doc-7b", "memo.v1.pdf", none, some 1, ⟨2023, 12, 5⟩⟩
    "その他" "メモ" (by decide) (by decide) (by decide)).1

/-- C10 (amended): the `DS_APPROVE` handler issues a commit request only
after recovering the file id from the embed footer pattern and finding both
the `Predicted Category` and `New File Name` fields, and the committed
values are exactly the recovered ones; when the first embed carries a footer
but extraction fails, it replies with the ephemeral error and issues no
commit; when the message has no embed, or its first embed has no footer, the
handler throws (issuing neither the ephemeral reply nor a commit). -/
theorem C10_approve_guard
    (msgEmbeds : List Embed) (e : Embed) (ft ack : String) (req : CommitRequest) :
    (dsApproveHandler msgEmbeds = Except.ok (ApproveOutcome.commit ack req) →
       msgEmbeds.head? = some e → e.footer = some ft →
       req.fileId = findFileId ft
       ∧ (findFileId ft).isSome = true
       ∧ req.folderName
           = (e.fields.find? (fun f => f.name == "Predicted Category")).map EmbedField.value
       ∧ (e.fields.find? (fun f => f.name == "Predicted Category")).isSome = true
       ∧ req.newFileName
           = (e.fields.find? (fun f => f.name == "New File Name")).map EmbedField.value
       ∧ (e.fields.find? (fun f => f.name == "New File Name")).isSome = true)
    ∧ (msgEmbeds.head? = some e → e.footer = some ft →
       (findFileId ft = none
        ∨ e.fields.find? (fun f => f.name == "Predicted Category") = none
        ∨ e.fields.find? (fun f => f.name == "New File Name") = none) →
       dsApproveHandler msgEmbeds
         = Except.ok (ApproveOutcome.ephemeralError "❌ エラー: ボタンのID形式が正しくありません。"))
    ∧ (msgEmbeds.head? = none →
       dsApproveHandler msgEmbeds
         = Except.error (JsError.typeError "Cannot read properties of undefined (reading footer)"))
    ∧ (msgEmbeds.head? = some e → e.footer = none →
       dsApproveHandler msgEmbeds
         = Except.error (JsError.typeError "Cannot read properties of undefined (reading text)")) := by
  refine ⟨?_, ?_, ?_, ?_⟩
  · intro hrun hhead hfoot
    simp only [dsApproveHandler, hhead, hfoot] at hrun
    cases hid : findFileId ft with
    | none =>
      simp only [hid] at hrun
      simp at hrun
    | some fid =>
      cases hcat : e.fields.find? (fun f => f.name == "Predicted Category") with
      | none =>
        simp only [hid, hcat] at hrun
        simp at hrun
      | some catF =>
        cases hnf : e.fields.find? (fun f => f.name == "New File Name") with
        | none =>
          simp only [hid, hcat, hnf] at hrun
          simp at hrun
        | some nfF =>
          simp only [hid, hcat, hnf, Except.ok.injEq, ApproveOutcome.commit.injEq] at hrun
          obtain ⟨_, hreq⟩ := hrun
          refine ⟨?_, ?_, ?_, ?_, ?_, ?_⟩ <;> simp [← hreq, hid, hcat, hnf]
  · intro hhead hfoot hor
    simp only [dsApproveHandler, hhead, hfoot]
    rcases hor with h | h | h
    · simp only [h]
    · cases hid : findFileId ft with
      | none => simp only [hid]
      | some fid => simp only [hid, h]
    · cases hid : findFileId ft with
      | none => simp only [hid]
      | some fid =>
        cases hcat : e.fields.find? (fun f => f.name == "Predicted Category") with
        | none => simp only [hid, hcat]
        | some catF => simp only [hid, hcat, h]
  · intro h
    simp only [dsApproveHandler, h]
  · intro hhead hfoot
    simp only [dsApproveHandler, hhead, hfoot]

/-- A well-formed approval embed for the C10 witness. -/
def c10good : Embed :=
  ⟨"New File Ready for Approval", "d",
   [⟨"File Name", "scan.pdf"⟩, ⟨"Predicted Category", "請求書・領収書"⟩,
    ⟨"New File Name", "2024-03-01_電気代_請求書.pdf"⟩],
   some "Processed by DS | File ID: doc-10"⟩

/-- A tampered embed (footer present, no recoverable file id) for the C10
witness. -/
def c10bad : Embed := ⟨"t", "d", [], some "tampered footer"⟩

/-- Witness for C10: on the well-formed embed the commit carries exactly the
recovered values; on the tampered embed the handler sends the ephemeral
error. -/
theorem C10_witness :
    ((⟨some "doc-10", some "請求書・領収書", some "2024-03-01_電気代_請求書.pdf"⟩
        : CommitRequest).fileId = findFileId "Processed by DS | File ID: doc-10"
      ∧ (findFileId "Processed by DS | File ID: doc-10").isSome = true
      ∧ (⟨some "doc-10", some "請求書・領収書", some "2024-03-01_電気代_請求書.pdf"⟩
          : CommitRequest).folderName
        = (c10good.fields.find? (fun f => f.name == "Predicted Category")).map EmbedField.value
      ∧ (c10good.fields.find? (fun f => f.name == "Predicted Category")).isSome = true
      ∧ (⟨some "doc-10", some "請求書・領収書", some "2024-03-01_電気代_請求書.pdf"⟩
          : CommitRequest).newFileName
        = (c10good.fields.find? (fun f => f.name == "New File Name")).map EmbedField.value
      ∧ (c10good.fields.find? (fun f => f.name == "New File Name")).isSome = true)
    ∧ dsApproveHandler [c10bad]
      = Except.ok (ApproveOutcome.ephemeralError "❌ エラー: ボタンのID形式が正しくありません。") := by
  constructor
  · exact (C10_approve_guard [c10good] c10good "Processed by DS | File ID: doc-10"
      "⏳ 承認処理を実行中です... ファイルID: `doc-10` をフォルダ: `請求書・領収書` へ移動します。"
      ⟨some "doc-10", some "請求書・領収書", some "2024-03-01_電気代_請求書.pdf"⟩).1
      rfl rfl rfl
  · exact (C10_approve_guard [c10bad] c10bad "tampered footer" ""
      ⟨none, none, none⟩).2.1 rfl rfl (Or.inl rfl)

/-- C10 counterexample: an Approve interaction whose message has no embeds
makes the handler throw a TypeError — it issues no commit, but it also does
not reply with the ephemeral error message the claim promises. -/
theorem C10_counterexample :
    dsApproveHandler []
      = Except.error (JsError.typeError "Cannot read properties of undefined (reading footer)")
    ∧ dsApproveHandler []
        ≠ Except.ok (ApproveOutcome.ephemeralError "❌ エラー: ボタンのID形式が正しくありません。") := by
  refine ⟨rfl, ?_⟩
  intro h
  rw [show dsApproveHandler []
      = Except.error (JsError.typeError "Cannot read properties of undefined (reading footer)")
    from rfl] at h
  exact Except.noConfusion h

/-- A string with nonempty character data is `==`-distinct from `""`. -/
lemma beq_empty_of_ne {s : String} (h : s ≠ "") : (s == "") = false := by
  cases hq : (s == "")
  · rfl
  · exact absurd (beq_iff_eq.mp hq) h

/-- The `DS_APPROVE` handler on a message whose embed has exactly the
`/notify` field layout: the commit carries the footer-recovered id, the
category field value and the new-file-name field value. -/
lemma dsApprove_embed (t d v1 v4 cat nf ft fid : String)
    (hfid : findFileId ft = some fid) :
    dsApproveHandler [⟨t, d,
        [⟨"File Name", v1⟩, ⟨"Predicted Category", cat⟩, ⟨"New File Name", nf⟩,
         ⟨"Google Drive Link", v4⟩], some ft⟩]
      = Except.ok (ApproveOutcome.commit
          ("⏳ 承認処理を実行中です... ファイルID: `" ++ fid ++ "` をフォルダ: `" ++ cat ++
            "` へ移動します。")
          ⟨some fid, some cat, some nf⟩) := by
  simp only [dsApproveHandler, List.head?, hfid]
  rfl

/-- The notification payload the Scanner sends on the success branch (the
`sendDiscordNotification` call in `processFile` with the `jsOr` defaults
already resolved for a nonempty category). -/
def scannerPayload (file : FileEntry) (c f : String) : NotifyPayload :=
  { title := "New File Ready for Approval",
    description := "File classified as **" ++ c ++ "**. Please click the button to approve.",
    fileName := file.title, fileId := file.id, category := c, newFileName := f }

/-- C1: for every approved document the final name computed by the Scanner —
the string embedded in the `DS_PENDING_RENAME::` marker and in the
notification payload — survives every hop unchanged: the `/notify` embed
carries it in the `New File Name` field, the `DS_APPROVE` handler recovers
exactly it and POSTs it as `newFileName`, and the CommitHandler's rename
patch applies exactly it as the new title. -/
theorem C1_final_name_round_trip
    (cfg : ScannerCfg) (file : FileEntry) (c n key root : String)
    (renv : RelayEnv) (senv : SubmitEnv) (st : DriveState) (meta : DriveFileMeta)
    (hcp : jsTruthy cfg.projectId = true) (hcl : jsTruthy cfg.location = true)
    (hbu : jsTruthy cfg.botApiUrl = true) (hbk : jsTruthy cfg.gasApiKey = true)
    (hc1 : (c == "") = false) (hc2 : strStartsWith c "手動レビュー" = false)
    (hn : (n == "") = false)
    (hid1 : file.id.data ≠ []) (hid2 : file.id.data.all isWordChar = true)
    (hid3 : jsTrim file.id = file.id)
    (hkey : renv.gasApiKey = some key)
    (hroot : senv.destRoot = some root) (hcreate : senv.createFolderOk = true)
    (hmeta : getFileMetadata st file.id = some meta) :
    processFile cfg file ⟨some c, some n⟩
      = [ScanEffect.notify (scannerPayload file c (finalNewFileName file ⟨some c, some n⟩)),
         ScanEffect.setDescription file.id
           ("DS_PENDING_RENAME::" ++ finalNewFileName file ⟨some c, some n⟩)]
    ∧ notifyHandler renv (some key)
        (scannerPayload file c (finalNewFileName file ⟨some c, some n⟩))
      = NotifyResult.message
          (buildEmbed (scannerPayload file c (finalNewFileName file ⟨some c, some n⟩)))
    ∧ dsApproveHandler
        [buildEmbed (scannerPayload file c (finalNewFileName file ⟨some c, some n⟩))]
      = Except.ok (ApproveOutcome.commit
          ("⏳ 承認処理を実行中です... ファイルID: `" ++ file.id ++ "` をフォルダ: `" ++ c ++
            "` へ移動します。")
          ⟨some file.id, some c, some (finalNewFileName file ⟨some c, some n⟩)⟩)
    ∧ SubmitEffect.patchTitleDescription file.id (finalNewFileName file ⟨some c, some n⟩) ""
        ∈ (doPost senv st
            ⟨some file.id, some c, some (finalNewFileName file ⟨some c, some n⟩)⟩).effects := by
  have hs : classifySuccess ⟨some c, some n⟩ = true := by
    simp only [classifySuccess, hc1, hc2, hn]
    rfl
  have hF := finalNewFileName_ne_empty file ⟨some c, some n⟩ hs
  have hFne : (finalNewFileName file ⟨some c, some n⟩ == "") = false := beq_empty_of_ne hF
  have hfne : (file.id == "") = false := by
    apply beq_empty_of_ne
    intro hq
    exact hid1 (by rw [hq])
  have hbemb : buildEmbed (scannerPayload file c (finalNewFileName file ⟨some c, some n⟩))
      = ⟨"New File Ready for Approval",
         "File classified as **" ++ c ++ "**. Please click the button to approve.",
         [⟨"File Name", jsOrS file.title "Unknown"⟩, ⟨"Predicted Category", c⟩,
          ⟨"New File Name", finalNewFileName file ⟨some c, some n⟩⟩,
          ⟨"Google Drive Link",
           "[Open File](https://drive.google.com/file/d/" ++ file.id ++ "/view)"⟩],
         some ("Processed by DS | File ID: " ++ file.id)⟩ := by
    rw [buildEmbed]
    simp only [scannerPayload, jsOrS_of_ne hFne]
    rfl
  refine ⟨?_, ?_, ?_, ?_⟩
  · have hcond : (!(jsTruthy cfg.projectId && jsTruthy cfg.location)) = false := by
      rw [hcp, hcl]
      rfl
    rw [processFile, hcond]
    simp only [Bool.false_eq_true, if_false]
    rw [if_pos hs]
    have hbb : (jsTruthy cfg.botApiUrl && jsTruthy cfg.gasApiKey) = true := by
      rw [hbu, hbk]
      rfl
    simp only [sendDiscordNotification, hbb, if_true]
    simp only [jsOr_some hc1]
    rfl
  · rw [notifyHandler, hkey]
    simp only [beq_self_eq_true, Bool.not_true, Bool.false_eq_true, if_false]
    simp only [scannerPayload, hfne, hc1, Bool.or_self, Bool.false_eq_true, if_false]
  · rw [hbemb]
    exact dsApprove_embed "New File Ready for Approval"
      ("File classified as **" ++ c ++ "**. Please click the button to approve.")
      (jsOrS file.title "Unknown")
      ("[Open File](https://drive.google.com/file/d/" ++ file.id ++ "/view)")
      c (finalNewFileName file ⟨some c, some n⟩)
      ("Processed by DS | File ID: " ++ file.id) file.id
      (findFileId_footer file.id hid1 hid2)
  · obtain ⟨tgt, st1, effs1, hfold, _⟩ := getOrCreateFolder_some senv st c root hcreate
    have hrun := doPost_reaches_move senv st
      ⟨some file.id, some c, some (finalNewFileName file ⟨some c, some n⟩)⟩
      root file.id meta tgt st1 effs1 hroot rfl
      (by rw [hid3]; exact hfne)
      (by rw [show jsTruthy (some c) = !(c == "") from rfl, hc1]; rfl)
      (by rw [show jsTruthy (some (finalNewFileName file ⟨some c, some n⟩))
            = !(finalNewFileName file ⟨some c, some n⟩ == "") from rfl, hFne]; rfl)
      (by rw [hid3]; exact hmeta)
      hfold
    rw [hrun, hid3]
    simp [submitFinish, List.mem_cons, List.mem_append]

/-- Scanner configuration for the C1 witness. -/
def c1cfg : ScannerCfg :=
  ⟨some "inbox-1", some "proj", some "loc", some "https://bot", some "key"⟩

/-- Document for the C1 witness. -/
def c1file : FileEntry := ⟨"doc-1", "電気代スキャン.pdf", none, some 5, ⟨2024, 3, 1⟩⟩

/-- Relay environment for the C1 witness. -/
def c1renv : RelayEnv := ⟨some "key"⟩

/-- Handler environment for the C1 witness. -/
def c1senv : SubmitEnv := ⟨some "root-1", "fld-fresh", true, true, true⟩

/-- Drive metadata of the C1 witness document at commit time. -/
def c1meta : DriveFileMeta :=
  ⟨"電気代スキャン.pdf", none, ["inbox-1"], "application/pdf", some 5, ⟨2024, 3, 1⟩⟩

/-- Store for the C1 witness. -/
def c1state : DriveState := ⟨[("doc-1", c1meta)], []⟩

/-- Witness for C1 at a fully concrete pipeline instance. -/
theorem C1_witness :
    processFile c1cfg c1file ⟨some "請求書・領収書", some "電気代_請求書"⟩
      = [ScanEffect.notify (scannerPayload c1file "請求書・領収書"
          (finalNewFileName c1file ⟨some "請求書・領収書", some "電気代_請求書"⟩)),
         ScanEffect.setDescription "doc-1"
           ("DS_PENDING_RENAME::" ++
             finalNewFileName c1file ⟨some "請求書・領収書", some "電気代_請求書"⟩)]
    ∧ notifyHandler c1renv (some "key")
        (scannerPayload c1file "請求書・領収書"
          (finalNewFileName c1file ⟨some "請求書・領収書", some "電気代_請求書"⟩))
      = NotifyResult.message
          (buildEmbed (scannerPayload c1file "請求書・領収書"
            (finalNewFileName c1file ⟨some "請求書・領収書", some "電気代_請求書"⟩)))
    ∧ dsApproveHandler
        [buildEmbed (scannerPayload c1file "請求書・領収書"
          (finalNewFileName c1file ⟨some "請求書・領収書", some "電気代_請求書"⟩))]
      = Except.ok (ApproveOutcome.commit
          ("⏳ 承認処理を実行中です... ファイルID: `" ++ "doc-1" ++ "` をフォルダ: `" ++
            "請求書・領収書" ++ "` へ移動します。")
          ⟨some "doc-1", some "請求書・領収書",
           some (finalNewFileName c1file ⟨some "請求書・領収書", some "電気代_請求書"⟩)⟩)
    ∧ SubmitEffect.patchTitleDescription "doc-1"
        (finalNewFileName c1file ⟨some "請求書・領収書", some "電気代_請求書"⟩) ""
        ∈ (doPost c1senv c1state
            ⟨some "doc-1", some "請求書・領収書",
             some (finalNewFileName c1file ⟨some "請求書・領収書", some "電気代_請求書"⟩)⟩).effects :=
  C1_final_name_round_trip c1cfg c1file "請求書・領収書" "電気代_請求書" "key" "root-1"
    c1renv c1senv c1state c1meta
    (by decide) (by decide) (by decide) (by decide)
    (by decide) (by decide) (by decide)
    (by decide) (by decide) (by decide)
    rfl rfl rfl rfl

end DriveSentinel
